import Mathlib

/-
Verification of the entity-component storage of probable-spork-ecs,
translated from src/component.rs (the final variant of the storage; world.rs
and lib_backup.rs are earlier drafts of the same logic).

Modelling conventions:
- The heterogeneous vector `component_vectors : Vec<Box<dyn ComponentArray>>`
  is a list of pairs `(tag, elements)`: `tag : α` models the `TypeId` of the
  element type, and matching on the tag models the `downcast_ref` scan in
  `get_component_vec`.  `α` is any type with decidable equality and `β` is
  the payload type of component values.
- `HashMap<TypeId, u32>` is an association list with replace-on-insert
  semantics; only `insert` and `get` are used by the source.
- `Entity(pub u32)` is a natural number; the `entities` counter is a u32, so
  `create_entity` aborts (Rust overflow check) once the counter would exceed
  the u32 range, modelled by returning `none`.
- `Vec::remove(index)` aborts when `index >= len`; `remove_entity` is
  therefore `Option`-valued, `none` modelling the abort.
- `RefCell::borrow` / `borrow_mut` always succeed in the quiescent states the
  storage operations are called in (no borrow is outstanding between public
  calls), so stored cells are modelled by their values; the borrow-flag
  discipline itself is modelled separately by `BorrowState` below.
-/

namespace ProbableSpork

/-- Number of values of a u32: the counter `entities: u32` lives below this. -/
def u32Size : Nat := 4294967296

/-- Entity is a newtype around a u32 identifier (`pub struct Entity(pub u32)`). -/
abbrev Entity := Nat

/-- The storage of src/component.rs: per-type component collections, the per
entity type-to-component-id table, the id counter and the liveness list. -/
structure ComponentStorage (α β : Type) where
  component_vectors : List (α × List β)
  component_table : List (Option (List (α × Nat)))
  entities : Nat
  alive_entities : List Entity
deriving DecidableEq

/-- HashMap get: first binding of the key, if any. -/
def mapGet {α : Type} [DecidableEq α] : List (α × Nat) → α → Option Nat
  | [], _ => none
  | (k, v) :: rest, t => if k = t then some v else mapGet rest t

/-- HashMap insert: replace the binding of the key, or append a new one. -/
def mapInsert {α : Type} [DecidableEq α] : List (α × Nat) → α → Nat → List (α × Nat)
  | [], t, c => [(t, c)]
  | (k, v) :: rest, t, c =>
    if k = t then (t, c) :: rest else (k, v) :: mapInsert rest t c

/-- Scan for the first collection whose element type matches the tag: the
  `find_map` + `downcast_ref` loop of `get_component_vec`. -/
def findVec {α β : Type} [DecidableEq α] : List (α × List β) → α → Option (List β)
  | [], _ => none
  | (t', l) :: rest, t => if t' = t then some l else findVec rest t

/-- Mutable scan of `get_component_vec_mut` followed by the push performed by
  `add_component`: append `c` to the first collection tagged `t` and return the
  updated list together with the length of that collection AFTER the push
  (`comp_vec.push(...); comp_vec.len() as u32` in the source).  `none` when no
  collection carries the tag. -/
def updateFirstVec {α β : Type} [DecidableEq α] :
    List (α × List β) → α → β → Option (List (α × List β) × Nat)
  | [], _, _ => none
  | (t', l) :: rest, t, c =>
    if t' = t then some ((t', l ++ [c]) :: rest, (l ++ [c]).length)
    else (updateFirstVec rest t c).map (fun p => ((t', l) :: p.1, p.2))

namespace ComponentStorage

variable {α β : Type} [DecidableEq α]

/-- ComponentStorage::new. -/
def new : ComponentStorage α β := ⟨[], [], 0, []⟩

/-- ComponentStorage::get_component_vec::<T>, with `t` playing `TypeId::of::<T>()`. -/
def get_component_vec (s : ComponentStorage α β) (t : α) : Option (List β) :=
  findVec s.component_vectors t

/-- ComponentStorage::add_component_vec::<T>: unconditionally pushes the new
  collection, whether or not one with the same tag already exists. -/
def add_component_vec (s : ComponentStorage α β) (t : α) (l : List β) :
    ComponentStorage α β :=
  { s with component_vectors := s.component_vectors ++ [(t, l)] }

/-- ComponentStorage::add_component::<T>: if no collection for the tag exists,
  push a fresh single-element collection and return id 0; otherwise push onto
  the existing collection and return its length after the push. -/
def add_component (s : ComponentStorage α β) (t : α) (c : β) :
    ComponentStorage α β × Nat :=
  match updateFirstVec s.component_vectors t c with
  | none => (add_component_vec s t [c], 0)
  | some (vs, n) => ({ s with component_vectors := vs }, n)

/-- ComponentStorage::create_entity: hand out the current counter value, push
  an empty table row and a liveness entry, increment the counter.  `none`
  models the abort of the checked u32 increment at the top of the range. -/
def create_entity (s : ComponentStorage α β) :
    Option (Entity × ComponentStorage α β) :=
  if s.entities + 1 < u32Size then
    some (s.entities,
      { s with component_table := s.component_table ++ [some []]
               entities := s.entities + 1
               alive_entities := s.alive_entities ++ [s.entities] })
  else none

/-- ComponentStorage::remove_entity: `self.alive_entities.remove(entity.0)`,
  which aborts (`none`) when the entity id is not below the length of the
  liveness list; the component table is not touched. -/
def remove_entity (s : ComponentStorage α β) (e : Entity) :
    Option (ComponentStorage α β) :=
  if e < s.alive_entities.length then
    some { s with alive_entities := s.alive_entities.eraseIdx e }
  else none

/-- ComponentStorage::get_entities. -/
def get_entities (s : ComponentStorage α β) : List Entity :=
  s.alive_entities

/-- ComponentStorage::get_entity_component_table_mut: the table row of the
  entity, `none` when the row is out of range or cleared. -/
def get_entity_component_table (s : ComponentStorage α β) (e : Entity) :
    Option (List (α × Nat)) :=
  (s.component_table.get? e).bind (fun row => row)

/-- ComponentStorage::register_component::<T>: first `add_component` (always),
  then record the returned id in the table row of the entity; when the row is
  absent the `and_then` silently does nothing. -/
def register_component (s : ComponentStorage α β) (t : α) (e : Entity) (c : β) :
    ComponentStorage α β :=
  match add_component s t c with
  | (s1, cid) =>
    match get_entity_component_table s1 e with
    | none => s1
    | some row =>
      { s1 with component_table :=
          s1.component_table.set e (some (mapInsert row t cid)) }

/-- ComponentStorage::get_entity_component_id::<T>. -/
def get_entity_component_id (s : ComponentStorage α β) (t : α) (e : Entity) :
    Option Nat :=
  (get_entity_component_table s e).bind (fun row => mapGet row t)

/-- ComponentStorage::get_entity_component::<T>: collection scan, then the id
  from the table, then the indexed cell; the returned `Ref` is modelled by the
  value it dereferences to. -/
def get_entity_component (s : ComponentStorage α β) (t : α) (e : Entity) :
    Option β :=
  (get_component_vec s t).bind fun vec =>
    (get_entity_component_id s t e).bind fun cid =>
      vec.get? cid

/-- ComponentStorage::get_entity_component_mut::<T>: identical lookup path;
  the `RefMut` is modelled by the value (see `BorrowState` for the flags). -/
def get_entity_component_mut (s : ComponentStorage α β) (t : α) (e : Entity) :
    Option β :=
  (get_component_vec s t).bind fun vec =>
    (get_entity_component_id s t e).bind fun cid =>
      vec.get? cid

/-- Length of the collection at position `i` of `component_vectors`. -/
def vecLenAt (s : ComponentStorage α β) (i : Nat) : Nat :=
  ((s.component_vectors.get? i).map (fun p => p.2.length)).getD 0

/-- The component at position `j` of the collection at position `i`. -/
def getCompAt (s : ComponentStorage α β) (i j : Nat) : Option (α × β) :=
  (s.component_vectors.get? i).bind fun p => (p.2.get? j).map (fun v => (p.1, v))

/-- Replace the component at position `j` of the collection at position `i`. -/
def setCompAt (s : ComponentStorage α β) (i j : Nat) (v : β) :
    ComponentStorage α β :=
  match s.component_vectors.get? i with
  | none => s
  | some (t, l) =>
    { s with component_vectors := s.component_vectors.set i (t, l.set j v) }

/-- One `component.update(world)` call of the `update_components` loop of the
  `ComponentArray` impl: the cell at `(i, j)` is borrowed mutably and updated
  by the `update` hook of its component type, which receives the current
  storage as the world argument. -/
def updateCompAt (hook : α → β → ComponentStorage α β → β)
    (s : ComponentStorage α β) (i j : Nat) : ComponentStorage α β :=
  match getCompAt s i j with
  | none => s
  | some (t, v) => setCompAt s i j (hook t v s)

/-- `<Vec<RefCell<T>> as ComponentArray>::update_components`: update every
  cell of collection `i` in insertion order, threading the storage state. -/
def update_vec (hook : α → β → ComponentStorage α β → β)
    (s : ComponentStorage α β) (i : Nat) : ComponentStorage α β :=
  (List.range (vecLenAt s i)).foldl (fun acc j => updateCompAt hook acc i j) s

/-- ComponentStorage::update_components: run every collection in registration
  order, each element updated by the hook of its component type. -/
def update_components (hook : α → β → ComponentStorage α β → β)
    (s : ComponentStorage α β) : ComponentStorage α β :=
  (List.range s.component_vectors.length).foldl
    (fun acc i => update_vec hook acc i) s

end ComponentStorage

/-- An entity-lifecycle call against the storage: `create_entity` or
  `remove_entity e`. -/
inductive Op : Type
  | create : Op
  | remove (e : Entity) : Op
deriving DecidableEq

/-- Run one lifecycle call; `none` models an abort, the optional `Entity` is
  the identifier handed out by `create_entity`. -/
def applyOp {α β : Type} [DecidableEq α] (s : ComponentStorage α β) :
    Op → Option (ComponentStorage α β × Option Entity)
  | Op.create => (s.create_entity).map (fun p => (p.2, some p.1))
  | Op.remove e => (s.remove_entity e).map (fun s2 => (s2, none))

/-- Run a sequence of lifecycle calls, collecting the identifiers returned by
  the `create_entity` calls; `none` when any call aborts. -/
def runOps {α β : Type} [DecidableEq α] (s : ComponentStorage α β) :
    List Op → Option (ComponentStorage α β × List Entity)
  | [] => some (s, [])
  | op :: ops =>
    (applyOp s op).bind fun p =>
      (runOps p.1 ops).map fun q => (q.1, p.2.toList ++ q.2)

/-- Modelled from the spec: the borrow flag of one stored component cell (the
  `RefCell` wrapping of each element; the implementation of `RefCell` is not
  part of src/).  A cell is free, held by `n + 1` readers, or held by one
  writer. -/
inductive BorrowState : Type
  | free : BorrowState
  | shared (n : Nat) : BorrowState
  | exclusive : BorrowState
deriving DecidableEq

/-- Modelled from the spec: the failure raised on a borrow-rule violation. -/
inductive BorrowError : Type
  | borrowConflict : BorrowError
deriving DecidableEq

/-- Modelled from the spec: acquiring a shared borrow on a cell succeeds while
  no exclusive borrow is outstanding (readers may pile up) and fails on a cell
  held by a writer. -/
def try_borrow : BorrowState → Except BorrowError BorrowState
  | BorrowState.free => Except.ok (BorrowState.shared 1)
  | BorrowState.shared n => Except.ok (BorrowState.shared (n + 1))
  | BorrowState.exclusive => Except.error BorrowError.borrowConflict

/-- Modelled from the spec: acquiring an exclusive borrow succeeds only on a
  free cell and fails while any shared or exclusive borrow is outstanding. -/
def try_borrow_mut : BorrowState → Except BorrowError BorrowState
  | BorrowState.free => Except.ok BorrowState.exclusive
  | BorrowState.shared _ => Except.error BorrowError.borrowConflict
  | BorrowState.exclusive => Except.error BorrowError.borrowConflict

/-- Tag standing for `TypeId::of::<Position>()` in the end-to-end runs. -/
def positionTag : Nat := 0

/-- Tag standing for the `TypeId` of a second, distinct component type. -/
def velocityTag : Nat := 1

/-- The update hook of the demo `Position` component: `x` is incremented by
  one; the world argument is not read. -/
def positionHook : Nat → Nat → ComponentStorage Nat Nat → Nat :=
  fun _t x _world => x + 1

/-- One tick of `update_components` with only `Position` components stored. -/
def tick (s : ComponentStorage Nat Nat) : ComponentStorage Nat Nat :=
  ComponentStorage.update_components positionHook s

/-- The storage after `create_entity` (giving entity 0) followed by
  `register_component::<Position>(e0, Position { x: 0 })`. -/
def demoStorage : ComponentStorage Nat Nat :=
  ⟨[(positionTag, [0])], [some [(positionTag, 0)]], 1, [0]⟩

/-- The same storage built by running the two calls. -/
def demoInit : Option (ComponentStorage Nat Nat) :=
  ((ComponentStorage.new : ComponentStorage Nat Nat).create_entity).map
    (fun p => p.2.register_component positionTag p.1 0)

/-- Create two entities, register a value of the same component type on each,
  then look up the component of the second entity: the trace behind the
  register/get round trip for a non-fresh collection. -/
def twoEntityTrace : Option (Option Nat × Option Nat) :=
  ((ComponentStorage.new : ComponentStorage Nat Nat).create_entity).bind fun p0 =>
    (p0.2.create_entity).bind fun p1 =>
      let s2 := p1.2.register_component positionTag p0.1 5
      let s3 := s2.register_component positionTag p1.1 7
      some (s3.get_entity_component_id positionTag p1.1,
            s3.get_entity_component positionTag p1.1)

/-- Create an entity, register a component on it, remove the entity, then look
  the component up again: the trace behind the stale-row lookup. -/
def removeThenLookupTrace : Option (Option Nat) :=
  ((ComponentStorage.new : ComponentStorage Nat Nat).create_entity).bind fun p0 =>
    let s1 := p0.2.register_component positionTag p0.1 5
    (s1.remove_entity p0.1).map fun s2 =>
      s2.get_entity_component positionTag p0.1

end ProbableSpork

/-
Helper lemmas about the embedded operations.
-/

namespace ProbableSpork

theorem remove_entity_none_iff {α β : Type} (s : ComponentStorage α β) (e : Nat) :
    s.remove_entity e = none ↔ s.alive_entities.length ≤ e := by
  unfold ComponentStorage.remove_entity
  by_cases h : e < s.alive_entities.length
  · rw [if_pos h]
    exact iff_of_false (by simp) (by omega)
  · rw [if_neg h]
    exact iff_of_true rfl (by omega)

theorem remove_entity_entities {α β : Type} (s s2 : ComponentStorage α β) (e : Nat)
    (h : s.remove_entity e = some s2) : s2.entities = s.entities := by
  unfold ComponentStorage.remove_entity at h
  by_cases h2 : e < s.alive_entities.length
  · rw [if_pos h2] at h
    cases h
    rfl
  · rw [if_neg h2] at h
    cases h

theorem create_entity_spec {α β : Type} (s : ComponentStorage α β) (e : Nat)
    (s2 : ComponentStorage α β) (h : s.create_entity = some (e, s2)) :
    e = s.entities ∧ s2.entities = s.entities + 1 := by
  unfold ComponentStorage.create_entity at h
  by_cases h2 : s.entities + 1 < u32Size
  · rw [if_pos h2] at h
    cases h
    exact ⟨rfl, rfl⟩
  · rw [if_neg h2] at h
    cases h

theorem runOps_ids {α β : Type} [DecidableEq α] (ops : List Op) :
    ∀ (s s2 : ComponentStorage α β) (ids : List Nat),
      runOps s ops = some (s2, ids) →
      ids = List.range' s.entities ids.length ∧
        s2.entities = s.entities + ids.length := by
  induction ops with
  | nil =>
    intro s s2 ids h
    unfold runOps at h
    cases h
    exact ⟨rfl, rfl⟩
  | cons op ops ih =>
    intro s s2 ids h
    unfold runOps at h
    cases op with
    | create =>
      simp only [applyOp] at h
      rcases hc : s.create_entity with _ | ⟨e, s1⟩
      · rw [hc] at h
        simp at h
      · rw [hc] at h
        simp only [Option.map_some', Option.some_bind] at h
        rcases hr : runOps s1 ops with _ | ⟨s3, ids3⟩
        · rw [hr] at h
          simp at h
        · rw [hr] at h
          simp only [Option.map_some', Option.some.injEq, Prod.mk.injEq,
            Option.toList_some, List.singleton_append] at h
          obtain ⟨rfl, rfl⟩ := h
          obtain ⟨he, hs1⟩ := create_entity_spec s e s1 hc
          obtain ⟨hids, hent⟩ := ih s1 s3 ids3 hr
          subst he
          constructor
          · simp only [List.length_cons, List.range'_succ]
            rw [← hs1, ← hids]
          · simp only [List.length_cons]
            omega
    | remove e =>
      simp only [applyOp] at h
      rcases hc : s.remove_entity e with _ | s1
      · rw [hc] at h
        simp at h
      · rw [hc] at h
        simp only [Option.map_some', Option.some_bind] at h
        rcases hr : runOps s1 ops with _ | ⟨s3, ids3⟩
        · rw [hr] at h
          simp at h
        · rw [hr] at h
          simp only [Option.map_some', Option.some.injEq, Prod.mk.injEq,
            Option.toList_none, List.nil_append] at h
          obtain ⟨rfl, rfl⟩ := h
          have hent := remove_entity_entities s s1 e hc
          obtain ⟨hids, hent2⟩ := ih s1 s3 ids3 hr
          rw [hent] at hids hent2
          exact ⟨hids, by omega⟩

theorem tick_demo (x : Nat) :
    tick ⟨[(positionTag, [x])], [some [(positionTag, 0)]], 1, [0]⟩
      = ⟨[(positionTag, [x + 1])], [some [(positionTag, 0)]], 1, [0]⟩ := rfl

theorem tick_iterate (n : Nat) :
    tick^[n] demoStorage
      = ⟨[(positionTag, [n])], [some [(positionTag, 0)]], 1, [0]⟩ := by
  induction n with
  | zero => rfl
  | succ n ih =>
    rw [Function.iterate_succ_apply', ih]
    exact tick_demo n

theorem get_demo (n : Nat) :
    ComponentStorage.get_entity_component
      (⟨[(positionTag, [n])], [some [(positionTag, 0)]], 1, [0]⟩ :
        ComponentStorage Nat Nat) positionTag 0 = some n := rfl

theorem add_component_fst_component_table {α β : Type} [DecidableEq α]
    (s : ComponentStorage α β) (t : α) (c : β) :
    (s.add_component t c).1.component_table = s.component_table := by
  unfold ComponentStorage.add_component
  rcases h : updateFirstVec s.component_vectors t c with _ | ⟨vs, n⟩ <;>
    simp [ComponentStorage.add_component_vec]

theorem updateFirstVec_spec {α β : Type} [DecidableEq α]
    (vs : List (α × List β)) (t : α) (c : β) :
    (updateFirstVec vs t c = none ∧ findVec vs t = none) ∨
    (∃ vs2 old, updateFirstVec vs t c = some (vs2, old.length + 1) ∧
      findVec vs t = some old ∧ findVec vs2 t = some (old ++ [c])) := by
  induction vs with
  | nil => exact Or.inl ⟨rfl, rfl⟩
  | cons hd rest ih =>
    obtain ⟨t2, l⟩ := hd
    by_cases h : t2 = t
    · subst h
      refine Or.inr ⟨(t2, l ++ [c]) :: rest, l, ?_, ?_, ?_⟩
      · simp [updateFirstVec]
      · simp [findVec]
      · simp [findVec]
    · rcases ih with ⟨h1, h2⟩ | ⟨vs2, old, h1, h2, h3⟩
      · exact Or.inl ⟨by simp [updateFirstVec, h, h1], by simp [findVec, h, h2]⟩
      · exact Or.inr ⟨(t2, l) :: vs2, old, by simp [updateFirstVec, h, h1],
          by simp [findVec, h, h2], by simp [findVec, h, h3]⟩

theorem findVec_append_singleton {α β : Type} [DecidableEq α]
    (vs : List (α × List β)) (t : α) (l : List β)
    (h : findVec vs t = none) : findVec (vs ++ [(t, l)]) t = some l := by
  induction vs with
  | nil => simp [findVec]
  | cons hd rest ih =>
    obtain ⟨t2, l2⟩ := hd
    by_cases h2 : t2 = t
    · simp [findVec, h2] at h
    · simp [findVec, h2] at h ⊢
      exact ih h

theorem add_component_fst_get_vec {α β : Type} [DecidableEq α]
    (s : ComponentStorage α β) (t : α) (c : β) :
    (s.add_component t c).1.get_component_vec t
      = some ((s.get_component_vec t).getD [] ++ [c]) := by
  unfold ComponentStorage.add_component ComponentStorage.get_component_vec
  rcases updateFirstVec_spec s.component_vectors t c with ⟨h1, h2⟩ | ⟨vs2, old, h1, h2, h3⟩
  · rw [h1]
    simp [ComponentStorage.add_component_vec, h2, findVec_append_singleton _ _ _ h2]
  · rw [h1]
    simp [h2, h3]

theorem get_entity_component_table_congr {α β : Type} [DecidableEq α]
    (s s2 : ComponentStorage α β) (e : Nat)
    (h : s2.component_table = s.component_table) :
    s2.get_entity_component_table e = s.get_entity_component_table e := by
  unfold ComponentStorage.get_entity_component_table
  rw [h]

theorem register_component_no_row {α β : Type} [DecidableEq α]
    (s : ComponentStorage α β) (t : α) (e : Nat) (c : β)
    (h : s.get_entity_component_table e = none) :
    s.register_component t e c = (s.add_component t c).1 := by
  unfold ComponentStorage.register_component
  rcases ha : s.add_component t c with ⟨s1, cid⟩
  have ht : s1.component_table = s.component_table := by
    have := add_component_fst_component_table s t c
    rw [ha] at this
    exact this
  dsimp only
  rw [get_entity_component_table_congr s s1 e ht, h]

/-
Claim theorems.
-/

/-- C1: the register/get round trip fails as soon as the collection of the
  component type is no longer fresh.  Two entities are created and each
  registers a value of the same component type; the trace then reads back the
  component of the second entity.  The component id recorded for entity 1 is 2
  (the length of the collection after the push) while its value 7 sits at
  index 1, so `get_entity_component` returns `none` instead of a value equal
  to the registered one.  Evaluation of the code at the failing input. -/
theorem register_then_get_second_entity_returns_none :
    twoEntityTrace = some (some 2, none) := rfl

/-- C2: `add_component` on a storage whose collection for the component type
  already holds one element appends the value and returns 2, the length of the
  collection after the push, not 1, the index of the newly appended element.
  Evaluation of the code at the failing input. -/
theorem add_component_returns_length_after_push :
    ComponentStorage.add_component
      (⟨[(positionTag, [5])], [], 0, []⟩ : ComponentStorage Nat Nat)
      positionTag 7
      = (⟨[(positionTag, [5, 7])], [], 0, []⟩, 2) := rfl

/-- C3: `remove_entity` removes only the liveness entry and leaves the
  component-id row in place, so after creating entity 0, registering the
  component value 5 on it and removing the entity, the lookup still returns
  the stale value 5 instead of reporting absence.  Evaluation of the code at
  the failing input. -/
theorem get_entity_component_stale_after_remove :
    removeThenLookupTrace = some (some 5) := rfl

/-- C4: over any sequence of `create_entity` and `remove_entity` calls against
  one fresh storage that runs to completion, the identifiers handed out by the
  `create_entity` calls are exactly 0, 1, 2, ... in order: strictly
  increasing, starting at 0, without repeats, and never reusing a removed
  identifier (the counter is never decremented by `remove_entity`). -/
theorem create_entity_ids_strictly_increasing (ops : List Op)
    (s2 : ComponentStorage Nat Nat) (ids : List Nat)
    (h : runOps (ComponentStorage.new : ComponentStorage Nat Nat) ops
      = some (s2, ids)) :
    ids = List.range ids.length ∧ List.Sorted (· < ·) ids ∧ ids.Nodup := by
  obtain ⟨hids, h2⟩ := runOps_ids ops _ s2 ids h
  have h0 : (ComponentStorage.new : ComponentStorage Nat Nat).entities = 0 := rfl
  rw [h0, ← List.range_eq_range'] at hids
  exact ⟨hids, hids ▸ List.sorted_lt_range ids.length,
    hids ▸ List.nodup_range ids.length⟩

/-- Witness for C4: the run create, create, remove 0, create hands out the
  identifiers 0, 1, 2. -/
theorem create_entity_ids_strictly_increasing_witness :
    ([0, 1, 2] : List Nat) = List.range ([0, 1, 2] : List Nat).length ∧
      List.Sorted (· < ·) ([0, 1, 2] : List Nat) ∧
      ([0, 1, 2] : List Nat).Nodup :=
  create_entity_ids_strictly_increasing
    [Op.create, Op.create, Op.remove 0, Op.create]
    ⟨[], [some [], some [], some []], 3, [1, 2]⟩ [0, 1, 2] rfl

/-- C5: `register_component` on an entity identifier with no component-id row
  (here: id 7 on the empty storage) does not fail: it returns an ordinary
  storage in which the value was appended to the collection of the type while
  the table is still empty, so no mapping was recorded and no error of any
  kind was surfaced.  Evaluation of the code at the failing input; the source
  has no `UnknownEntity` error at all (the function returns unit). -/
theorem register_component_unknown_entity_silent :
    ComponentStorage.register_component
      (ComponentStorage.new : ComponentStorage Nat Nat) positionTag 7 5
      = ⟨[(positionTag, [5])], [], 0, []⟩ := rfl

/-- C6: starting from the empty storage, creating entity 0 and registering the
  Position component with x = 0 on it yields `demoStorage`; running
  `update_components` n times with the Position update hook (which increments
  x by one) makes the lookup of the Position component of entity 0 return
  x = n, in particular x = 1 after one tick and x = 90 after 90 ticks. -/
theorem update_components_increments_position :
    demoInit = some demoStorage ∧
      ∀ n : Nat,
        ComponentStorage.get_entity_component (tick^[n] demoStorage)
          positionTag 0 = some n := by
  refine ⟨rfl, fun n => ?_⟩
  rw [tick_iterate n]
  exact get_demo n

/-- C7: on any component cell whose borrow flag is not free (some shared or
  exclusive borrow is outstanding), acquiring an exclusive borrow fails with
  the borrow-conflict error instead of blocking; acquiring a shared borrow on
  a free cell succeeds, and so does piling a further shared borrow on any
  number of outstanding shared borrows. -/
theorem borrow_discipline :
    (∀ st : BorrowState, st ≠ BorrowState.free →
      try_borrow_mut st = Except.error BorrowError.borrowConflict) ∧
    try_borrow BorrowState.free = Except.ok (BorrowState.shared 1) ∧
    (∀ n : Nat, try_borrow (BorrowState.shared n)
      = Except.ok (BorrowState.shared (n + 1))) := by
  refine ⟨fun st hst => ?_, rfl, fun n => rfl⟩
  cases st with
  | free => exact absurd rfl hst
  | shared n => rfl
  | exclusive => rfl

/-- Witness for C7: with one shared borrow outstanding, acquiring an exclusive
  borrow raises the borrow-conflict error. -/
theorem borrow_discipline_witness :
    try_borrow_mut (BorrowState.shared 1)
      = Except.error BorrowError.borrowConflict :=
  borrow_discipline.1 (BorrowState.shared 1) (by decide)

/-- C8: `add_component_vec` pushes the new collection unconditionally: adding
  a second collection for the same component type is accepted silently,
  leaving two collections with the same tag in the storage, instead of being
  rejected with a duplicate-registration error (no such error exists in the
  source).  Evaluation of the code at the failing input. -/
theorem add_component_vec_duplicate_accepted :
    ComponentStorage.add_component_vec
      (ComponentStorage.add_component_vec
        (ComponentStorage.new : ComponentStorage Nat Nat) positionTag [5])
      positionTag [6]
      = ⟨[(positionTag, [5]), (positionTag, [6])], [], 0, []⟩ := rfl

/-- C9: `remove_entity` indexes the liveness list with the numeric entity id,
  so it aborts exactly when the id is at least the current length of that
  list; in particular the run create, remove 0, remove 0 (removing the same
  entity twice) and the run create, create, remove 0, remove 1 (creating two
  entities, removing the first, then the second) both abort. -/
theorem remove_entity_aborts_out_of_bounds :
    (∀ (s : ComponentStorage Nat Nat) (e : Nat),
      s.remove_entity e = none ↔ s.alive_entities.length ≤ e) ∧
    runOps (ComponentStorage.new : ComponentStorage Nat Nat)
      [Op.create, Op.remove 0, Op.remove 0] = none ∧
    runOps (ComponentStorage.new : ComponentStorage Nat Nat)
      [Op.create, Op.create, Op.remove 0, Op.remove 1] = none :=
  ⟨fun s e => remove_entity_none_iff s e, rfl, rfl⟩

/-- C10: `register_component` on an entity identifier with no component-id row
  is not atomic: the value is still appended to the collection of its type
  (creating the collection when absent) by the unconditional `add_component`
  call, while the component table is left unchanged, so the storage grows by
  one orphaned instance with no mapping recorded and no error reported. -/
theorem register_component_appends_despite_missing_row {α β : Type}
    [DecidableEq α] (s : ComponentStorage α β) (t : α) (e : Nat) (c : β)
    (h : s.get_entity_component_table e = none) :
    (s.register_component t e c).component_table = s.component_table ∧
    (s.register_component t e c).get_component_vec t
      = some ((s.get_component_vec t).getD [] ++ [c]) := by
  rw [register_component_no_row s t e c h]
  exact ⟨add_component_fst_component_table s t c, add_component_fst_get_vec s t c⟩

/-- Witness for C10: registering the value 5 for the type tagged 0 on the
  never-created entity 7 of the empty storage leaves the table empty and
  appends 5 to a fresh collection. -/
theorem register_component_appends_despite_missing_row_witness :
    (((ComponentStorage.new : ComponentStorage Nat Nat).register_component
        0 7 5).component_table
      = (ComponentStorage.new : ComponentStorage Nat Nat).component_table) ∧
    ((ComponentStorage.new : ComponentStorage Nat Nat).register_component
        0 7 5).get_component_vec 0
      = some ((((ComponentStorage.new : ComponentStorage Nat Nat).get_component_vec
          0).getD []) ++ [5]) :=
  register_component_appends_despite_missing_row
    (ComponentStorage.new : ComponentStorage Nat Nat) 0 7 5 rfl


end ProbableSpork
